import Mathlib

/-!
Verification of the spi-ram bring-up driver (spiram.c).

Shallow embedding conventions:
  * The driver is compiled with MICROPY_HW_SPIRAM_STARTUP_TEST defined and
    MICROPY_HW_SPIRAM_USE_HAL undefined (the default "use micropython" MPU
    path), so the diagnostic state, spiram_read_id and the start-up call of
    spiram_test are all present.
  * Every HAL transport call (HAL_OSPI_Init, HAL_OSPI_Command,
    HAL_OSPI_Receive, HAL_OSPI_Transmit, HAL_OSPI_MemoryMapped) has its
    success/failure outcome drawn from an environment `Env`, one field per
    call site (the spiram_clear loop sites are indexed by the loop address).
  * The sticky module-level diagnostic variables (spiram_err,
    spiram_bad_addr, spiram_bad_pattern8/16/32, spiram_id) become the
    record `Diag`, threaded explicitly.
  * Each modelled C function returns its updated `Diag` together with the
    list of externally visible events it performs, in program order:
    MPU reconfigurations, HAL calls (with the full command descriptor and
    outcome), and the loads/stores the memory test issues into the mapped
    window.  Composition concatenates traces.
  * Loads from the mapped window during the self-test observe values given
    by the oracles `Env.read8/read16/read32` (indexed by the loop counter
    of the corresponding granularity); this models RAM that may corrupt
    data between the write pass and the read pass.
  * The pin/clock configuration statements of ospi_init and the contents of
    the OSPI_HandleTypeDef init record have no observable effect on any
    claim and are represented only by the single HAL_OSPI_Init outcome
    event.
-/

/-- OSPI_MAP_ADDR = OCTOSPI1_BASE = 0x90000000. -/
def OSPI_MAP_ADDR : Nat := 0x90000000

/-- MICROPY_HW_SPIRAM_SIZE: 8 Mbyte. -/
def SPIRAM_SIZE : Nat := 0x800000

/-- SPI command bytes from the device datasheet (spiram.c, lines 33-44). -/
def SRAM_CMD_QUAD_READ : Nat := 0xeb

def SRAM_CMD_QUAD_WRITE : Nat := 0x38

def SRAM_CMD_QUAD_ON : Nat := 0x35

def SRAM_CMD_RST_EN : Nat := 0x66

def SRAM_CMD_RST : Nat := 0x99

def SRAM_CMD_READ_ID : Nat := 0x9f

/-- The self-test patterns (spiram.c, lines 60-62). -/
def spiram_pattern8 : Nat := 0xA5

def spiram_pattern16 : Nat := 0x5A5A

def spiram_pattern32 : Nat := 0xA5A5A5A5

/-- enum spiram_err_enum (spiram.c, line 57). -/
inductive SpiramErr where
  | ok
  | memtestPass
  | memtest8
  | memtest16
  | memtest32
  | ospiInit
  | ospiWriteConfig
  | ospiReadConfig
  | ospiMmap
  | readidCmd
  | readidDta
  | qspiRstEn
  | qspiRst
  | spiRstEn
  | spiRst
  | quadOn
  | clear
  deriving DecidableEq, Repr

/-- Line widths of an OSPI transaction phase (HAL_OSPI_..._NONE / _1_LINE / _4_LINES). -/
inductive Lines where
  | noLines
  | oneLine
  | fourLines
  deriving DecidableEq, Repr

/-- Operation type of a command (HAL_OSPI_OPTYPE_COMMON_CFG / _WRITE_CFG / _READ_CFG). -/
inductive OpType where
  | commonCfg
  | writeCfg
  | readCfg
  deriving DecidableEq, Repr

/-- The OSPI_RegularCmdTypeDef fields the driver sets.  DTR modes and the
alternate-bytes mode are encoded as Booleans (false = disabled / none);
dqsEnable true = HAL_OSPI_DQS_ENABLE; siooEveryCmd true = HAL_OSPI_SIOO_INST_EVERY_CMD. -/
structure OspiCmd where
  operationType : OpType
  flashId : Nat
  instructionMode : Lines
  instructionSize : Nat
  instructionDtr : Bool
  addressMode : Lines
  addressSize : Nat
  addressDtr : Bool
  alternateBytesNone : Bool
  dataMode : Lines
  dataDtr : Bool
  dqsEnable : Bool
  siooEveryCmd : Bool
  instruction : Nat
  address : Nat
  nbData : Nat
  dummyCycles : Nat
  deriving DecidableEq, Repr

/-- Externally visible events of the driver, in program order. -/
inductive Event where
  | mpuDisableAll
  | mpuEnableMapped
  | ospiInitCall (ok : Bool)
  | command (c : OspiCmd) (ok : Bool)
  | receive (n : Nat) (ok : Bool)
  | transmit (data : List Nat) (ok : Bool)
  | memoryMapped (timeoutActivation : Bool) (timeoutPeriod : Nat) (ok : Bool)
  | memWrite (width addr val : Nat)
  | memRead (width addr val : Nat)
  deriving DecidableEq, Repr

/-- The sticky module-level diagnostic state (spiram.c, lines 58-66). -/
structure Diag where
  err : SpiramErr
  bad_addr : Nat
  bad_pattern8 : Nat
  bad_pattern16 : Nat
  bad_pattern32 : Nat
  id : List Nat
  deriving DecidableEq, Repr

/-- Initial values of the diagnostic globals: the (uintN_t)-1 sentinels and
an all-zero identifier buffer. -/
def diag0 : Diag :=
  { err := SpiramErr.ok
    bad_addr := 0xFFFFFFFF
    bad_pattern8 := 0xFF
    bad_pattern16 := 0xFFFF
    bad_pattern32 := 0xFFFFFFFF
    id := List.replicate 8 0 }

/-- spiram_error (spiram.c, lines 68-72): record an outcome only when the
currently recorded outcome is SPIRAM_ERR_OK (first recording wins). -/
def spiram_error (e : SpiramErr) (d : Diag) : Diag :=
  if d.err = SpiramErr.ok then { d with err := e } else d

/-- One HAL-call outcome per static call site; the spiram_clear loop call
sites are indexed by the loop address, and the memory-test load results are
given per loop counter of each granularity. -/
structure Env where
  okOspiInit : Bool
  okQspiRstEn : Bool
  okQspiRst : Bool
  okSpiRstEn : Bool
  okSpiRst : Bool
  okReadIdCmd : Bool
  okReadIdDta : Bool
  okQuadOn : Bool
  okClearCmd : Nat → Bool
  okClearXmit : Nat → Bool
  okWriteCfg : Bool
  okReadCfg : Bool
  okMmap : Bool
  idBytes : List Nat
  read8 : Nat → Nat
  read16 : Nat → Nat
  read32 : Nat → Nat

/-- ospi_init (spiram.c, lines 129-176): clock/pin setup has no modelled
effect; HAL_OSPI_Init failure records SPIRAM_ERR_OSPI_INIT. -/
def ospi_init (env : Env) (d : Diag) : Diag × List Event :=
  (if env.okOspiInit then d else spiram_error SpiramErr.ospiInit d,
   [Event.ospiInitCall env.okOspiInit])

/-- First sCommand value of spiram_quad_on (spiram.c, lines 281-298):
reset-enable in 4-line instruction mode, no address, no data. -/
def quadOnCmd1 : OspiCmd :=
  { operationType := OpType.commonCfg
    flashId := 1
    instructionMode := Lines.fourLines
    instructionSize := 8
    instructionDtr := false
    addressMode := Lines.noLines
    addressSize := 24
    addressDtr := false
    alternateBytesNone := true
    dataMode := Lines.noLines
    dataDtr := false
    dqsEnable := false
    siooEveryCmd := true
    instruction := SRAM_CMD_RST_EN
    address := 0
    nbData := 0
    dummyCycles := 0 }

/-- Second command of spiram_quad_on: reset, still 4-line (line 304). -/
def quadOnCmd2 : OspiCmd := { quadOnCmd1 with instruction := SRAM_CMD_RST }

/-- Third command: reset-enable again, now 1-line (lines 310-311). -/
def quadOnCmd3 : OspiCmd :=
  { quadOnCmd2 with instructionMode := Lines.oneLine, instruction := SRAM_CMD_RST_EN }

/-- Fourth command: reset in 1-line mode (line 317). -/
def quadOnCmd4 : OspiCmd := { quadOnCmd3 with instruction := SRAM_CMD_RST }

/-- Fifth command: enable quad mode, still 1-line instruction (line 331). -/
def quadOnCmd5 : OspiCmd := { quadOnCmd4 with instruction := SRAM_CMD_QUAD_ON }

/-- The sCommand of spiram_read_id (spiram.c, lines 243-260): everything on
one line, 8 data bytes. -/
def readIdCmd : OspiCmd :=
  { operationType := OpType.commonCfg
    flashId := 1
    instructionMode := Lines.oneLine
    instructionSize := 8
    instructionDtr := false
    addressMode := Lines.oneLine
    addressSize := 24
    addressDtr := false
    alternateBytesNone := true
    dataMode := Lines.oneLine
    dataDtr := false
    dqsEnable := false
    siooEveryCmd := true
    instruction := SRAM_CMD_READ_ID
    address := 0
    nbData := 8
    dummyCycles := 0 }

/-- spiram_read_id (spiram.c, lines 241-271): command, then receive 8 id
bytes; each phase records its own failure variant; a successful receive
stores the device identifier. -/
def spiram_read_id (env : Env) (d : Diag) : Diag × List Event :=
  let d1 := if env.okReadIdCmd then d else spiram_error SpiramErr.readidCmd d
  let d2 :=
    if env.okReadIdDta then { d1 with id := env.idBytes }
    else spiram_error SpiramErr.readidDta d1
  (d2, [Event.command readIdCmd env.okReadIdCmd, Event.receive 8 env.okReadIdDta])

/-- spiram_quad_on (spiram.c, lines 277-336): reset twice in 4-line mode,
twice in 1-line mode, read the identifier (STARTUP_TEST build), then enable
quad mode; every step runs regardless of earlier failures. -/
def spiram_quad_on (env : Env) (d : Diag) : Diag × List Event :=
  let d1 := if env.okQspiRstEn then d else spiram_error SpiramErr.qspiRstEn d
  let d2 := if env.okQspiRst then d1 else spiram_error SpiramErr.qspiRst d1
  let d3 := if env.okSpiRstEn then d2 else spiram_error SpiramErr.spiRstEn d2
  let d4 := if env.okSpiRst then d3 else spiram_error SpiramErr.spiRst d3
  let rid := spiram_read_id env d4
  let d6 := if env.okQuadOn then rid.1 else spiram_error SpiramErr.quadOn rid.1
  (d6,
   [Event.command quadOnCmd1 env.okQspiRstEn,
    Event.command quadOnCmd2 env.okQspiRst,
    Event.command quadOnCmd3 env.okSpiRstEn,
    Event.command quadOnCmd4 env.okSpiRst] ++
   rid.2 ++
   [Event.command quadOnCmd5 env.okQuadOn])

/-- The 32-byte source buffer of spiram_clear (spiram.c, line 343). -/
def clearSrc : List Nat :=
  [0xDEADBEEF, 0xDEADBEEF, 0xDEADBEEF, 0xDEADBEEF,
   0xDEADBEEF, 0xDEADBEEF, 0xDEADBEEF, 0xDEADBEEF]

/-- The sCommand of spiram_clear (spiram.c, lines 345-362): quad write of
32 bytes with the data strobe enabled; the address is set per iteration. -/
def spiram_clear_cmd : OspiCmd :=
  { operationType := OpType.commonCfg
    flashId := 1
    instructionMode := Lines.fourLines
    instructionSize := 8
    instructionDtr := false
    addressMode := Lines.fourLines
    addressSize := 24
    addressDtr := false
    alternateBytesNone := true
    dataMode := Lines.fourLines
    dataDtr := false
    dqsEnable := true
    siooEveryCmd := true
    instruction := SRAM_CMD_QUAD_WRITE
    address := 0
    nbData := 32
    dummyCycles := 0 }

/-- The for-loop of spiram_clear (spiram.c, lines 364-374): one command and
one transmit per 32-byte step; failures record SPIRAM_ERR_CLEAR and the
loop continues. -/
def spiram_clear_loop (env : Env) (d : Diag) (addr : Nat) : Diag × List Event :=
  if h : addr < SPIRAM_SIZE then
    let d1 := if env.okClearCmd addr then d else spiram_error SpiramErr.clear d
    let d2 := if env.okClearXmit addr then d1 else spiram_error SpiramErr.clear d1
    let r := spiram_clear_loop env d2 (addr + 32)
    (r.1,
     Event.command { spiram_clear_cmd with address := addr } (env.okClearCmd addr) ::
     Event.transmit clearSrc (env.okClearXmit addr) :: r.2)
  else (d, [])
termination_by SPIRAM_SIZE - addr
decreasing_by omega

/-- spiram_clear (spiram.c, lines 341-376). -/
def spiram_clear (env : Env) (d : Diag) : Diag × List Event :=
  spiram_clear_loop env d 0

/-- The write-path configuration command of ospi_mmap (spiram.c, lines
187-203): OPTYPE_WRITE_CFG, quad instruction/address/data, DQS enabled. -/
def mmapWriteCfgCmd : OspiCmd :=
  { operationType := OpType.writeCfg
    flashId := 1
    instructionMode := Lines.fourLines
    instructionSize := 8
    instructionDtr := false
    addressMode := Lines.fourLines
    addressSize := 24
    addressDtr := false
    alternateBytesNone := true
    dataMode := Lines.fourLines
    dataDtr := false
    dqsEnable := true
    siooEveryCmd := true
    instruction := SRAM_CMD_QUAD_WRITE
    address := 0
    nbData := 0
    dummyCycles := 0 }

/-- The read-path configuration command (spiram.c, lines 211-214), obtained
from the write-path command by the mutations the C code performs. -/
def mmapReadCfgCmd : OspiCmd :=
  { mmapWriteCfgCmd with
    dqsEnable := false
    operationType := OpType.readCfg
    instruction := SRAM_CMD_QUAD_READ
    dummyCycles := 6 }

/-- ospi_mmap (spiram.c, lines 178-232): block all MPU access, program the
write path, program the read path, activate memory mapping with the
chip-select timeout counter enabled (period 1), then enable MPU access to
the mapped window.  Each HAL failure records its own variant. -/
def ospi_mmap (env : Env) (d : Diag) : Diag × List Event :=
  let d1 := if env.okWriteCfg then d else spiram_error SpiramErr.ospiWriteConfig d
  let d2 := if env.okReadCfg then d1 else spiram_error SpiramErr.ospiReadConfig d1
  let d3 := if env.okMmap then d2 else spiram_error SpiramErr.ospiMmap d2
  (d3,
   [Event.mpuDisableAll,
    Event.command mmapWriteCfgCmd env.okWriteCfg,
    Event.command mmapReadCfgCmd env.okReadCfg,
    Event.memoryMapped true 1 env.okMmap,
    Event.mpuEnableMapped])

/-- The sCommand of spiram_read (spiram.c, lines 385-402). -/
def spiramReadCmd (addr len : Nat) : OspiCmd :=
  { operationType := OpType.commonCfg
    flashId := 1
    instructionMode := Lines.fourLines
    instructionSize := 8
    instructionDtr := false
    addressMode := Lines.fourLines
    addressSize := 24
    addressDtr := false
    alternateBytesNone := true
    dataMode := Lines.fourLines
    dataDtr := false
    dqsEnable := false
    siooEveryCmd := true
    instruction := SRAM_CMD_QUAD_READ
    address := addr
    nbData := len
    dummyCycles := 6 }

/-- The sCommand of spiram_write (spiram.c, lines 417-434): DQS enabled per
the errata note, no dummy cycles. -/
def spiramWriteCmd (addr len : Nat) : OspiCmd :=
  { spiramReadCmd addr len with
    dqsEnable := true
    instruction := SRAM_CMD_QUAD_WRITE
    dummyCycles := 0 }

/-- spiram_read (spiram.c, lines 383-411): command then receive; a failing
phase raises (mp_raise_RuntimeError, modelled as `some message`) and the
function never touches the diagnostic state. -/
def spiram_read (okCmd okData : Bool) (addr len : Nat) (d : Diag) :
    (Diag × List Event) × Option String :=
  if okCmd then
    if okData then
      ((d, [Event.command (spiramReadCmd addr len) true, Event.receive len true]), none)
    else
      ((d, [Event.command (spiramReadCmd addr len) true, Event.receive len false]),
       some "HAL_OSPI_Receive")
  else ((d, [Event.command (spiramReadCmd addr len) false]), some "HAL_OSPI_Command")

/-- spiram_write (spiram.c, lines 415-443): command then transmit; a failing
phase raises and the diagnostic state is never touched. -/
def spiram_write (okCmd okData : Bool) (addr len : Nat) (src : List Nat) (d : Diag) :
    (Diag × List Event) × Option String :=
  if okCmd then
    if okData then
      ((d, [Event.command (spiramWriteCmd addr len) true, Event.transmit src true]), none)
    else
      ((d, [Event.command (spiramWriteCmd addr len) true, Event.transmit src false]),
       some "HAL_OSPI_Transmit")
  else ((d, [Event.command (spiramWriteCmd addr len) false]), some "HAL_OSPI_Command")

/-- The write pass shared by the three memory tests: store the pattern at
every cell index below `count`, at the given access width (spiram.c, lines
479-481, 503-505, 524-526).  Produces only store events. -/
def memtest_write_loop (width pat count : Nat) (i : Nat) : List Event :=
  if h : i < count then
    Event.memWrite width (OSPI_MAP_ADDR + width * i) pat ::
      memtest_write_loop width pat count (i + 1)
  else []
termination_by count - i
decreasing_by omega

/-- The read pass shared by the three memory tests (spiram.c, lines 487-495,
508-516, 529-537): read every cell back; on the first mismatch apply the
granularity's recording function to the faulting byte address and the value
read, and return immediately. -/
def memtest_read_loop (read : Nat → Nat) (width count : Nat) (pat : Nat)
    (record : Diag → Nat → Nat → Diag) (d : Diag) (i : Nat) : Diag × List Event :=
  if h : i < count then
    let v := read i
    if v ≠ pat then
      (record d (OSPI_MAP_ADDR + width * i) v, [Event.memRead width (OSPI_MAP_ADDR + width * i) v])
    else
      let r := memtest_read_loop read width count pat record d (i + 1)
      (r.1, Event.memRead width (OSPI_MAP_ADDR + width * i) v :: r.2)
  else (d, [])
termination_by count - i
decreasing_by omega

/-- Recording step of spiram_memtest8 on a mismatch (spiram.c, lines
490-492): spiram_error(SPIRAM_ERR_MEMTEST8), then the faulting address and
the observed byte are stored unconditionally. -/
def record8 (d : Diag) (a v : Nat) : Diag :=
  { spiram_error SpiramErr.memtest8 d with bad_addr := a, bad_pattern8 := v }

/-- Recording step of spiram_memtest16 (spiram.c, lines 511-513). -/
def record16 (d : Diag) (a v : Nat) : Diag :=
  { spiram_error SpiramErr.memtest16 d with bad_addr := a, bad_pattern16 := v }

/-- Recording step of spiram_memtest32 (spiram.c, lines 532-534). -/
def record32 (d : Diag) (a v : Nat) : Diag :=
  { spiram_error SpiramErr.memtest32 d with bad_addr := a, bad_pattern32 := v }

/-- spiram_memtest8 (spiram.c, lines 474-496): write the 8-bit pattern to
the whole window, then read it back. -/
def spiram_memtest8 (env : Env) (d : Diag) : Diag × List Event :=
  let r := memtest_read_loop env.read8 1 SPIRAM_SIZE spiram_pattern8 record8 d 0
  (r.1, memtest_write_loop 1 spiram_pattern8 SPIRAM_SIZE 0 ++ r.2)

/-- spiram_memtest16 (spiram.c, lines 498-517). -/
def spiram_memtest16 (env : Env) (d : Diag) : Diag × List Event :=
  let r := memtest_read_loop env.read16 2 (SPIRAM_SIZE / 2) spiram_pattern16 record16 d 0
  (r.1, memtest_write_loop 2 spiram_pattern16 (SPIRAM_SIZE / 2) 0 ++ r.2)

/-- spiram_memtest32 (spiram.c, lines 519-538). -/
def spiram_memtest32 (env : Env) (d : Diag) : Diag × List Event :=
  let r := memtest_read_loop env.read32 4 (SPIRAM_SIZE / 4) spiram_pattern32 record32 d 0
  (r.1, memtest_write_loop 4 spiram_pattern32 (SPIRAM_SIZE / 4) 0 ++ r.2)

/-- spiram_test (spiram.c, lines 540-546): run the 32-, 16- and 8-bit tests
in that order, record SPIRAM_ERR_MEMTEST_PASS (first-recording-wins), and
return whether the recorded outcome is the pass marker.  The `fast`
argument is not used by the body. -/
def spiram_test (fast : Bool) (env : Env) (d : Diag) : (Diag × List Event) × Bool :=
  let r32 := spiram_memtest32 env d
  let r16 := spiram_memtest16 env r32.1
  let r8 := spiram_memtest8 env r16.1
  let d4 := spiram_error SpiramErr.memtestPass r8.1
  ((d4, r32.2 ++ r16.2 ++ r8.2), decide (d4.err = SpiramErr.memtestPass))

/-- spiram_init (spiram.c, lines 448-457): ospi_init, spiram_quad_on,
spiram_clear, ospi_mmap, then (STARTUP_TEST build) spiram_test(false);
unconditionally returns true. -/
def spiram_init (env : Env) (d : Diag) : (Diag × List Event) × Bool :=
  let r1 := ospi_init env d
  let r2 := spiram_quad_on env r1.1
  let r3 := spiram_clear env r2.1
  let r4 := ospi_mmap env r3.1
  let r5 := spiram_test false env r4.1
  ((r5.1.1, r1.2 ++ r2.2 ++ r3.2 ++ r4.2 ++ r5.1.2), true)

/-- spiram_start (spiram.c, lines 459-461). -/
def spiram_start : Nat := OSPI_MAP_ADDR

/-- spiram_end (spiram.c, lines 463-465). -/
def spiram_end : Nat := OSPI_MAP_ADDR + SPIRAM_SIZE

/-! ## Basic lemmas about the recording primitive -/

theorem spiram_error_noop (e : SpiramErr) (d : Diag) (h : d.err ≠ SpiramErr.ok) :
    spiram_error e d = d := by
  simp [spiram_error, h]

theorem spiram_error_rec (e : SpiramErr) (d : Diag) (h : d.err = SpiramErr.ok) :
    spiram_error e d = { d with err := e } := by
  simp [spiram_error, h]

/-! ## Closed forms of the memory-test loops -/

/-- The write events the write pass issues, in ascending cell order. -/
def memtestWrites (width pat count : Nat) : List Event :=
  (List.range' 0 count).map fun j => Event.memWrite width (OSPI_MAP_ADDR + width * j) pat

/-- The read events of a read pass over cells lo, lo+1, ..., lo+n-1. -/
def memtestReads (read : Nat → Nat) (width lo n : Nat) : List Event :=
  (List.range' lo n).map fun j => Event.memRead width (OSPI_MAP_ADDR + width * j) (read j)

theorem memtest_write_loop_eq (width pat count : Nat) :
    ∀ (n i : Nat), count - i = n →
      memtest_write_loop width pat count i =
        (List.range' i n).map fun j => Event.memWrite width (OSPI_MAP_ADDR + width * j) pat := by
  intro n
  induction n with
  | zero =>
    intro i hn
    rw [memtest_write_loop]
    have h : ¬ i < count := by omega
    simp [h]
  | succ m ih =>
    intro i hn
    have h : i < count := by omega
    rw [memtest_write_loop, dif_pos h, ih (i + 1) (by omega), List.range'_succ, List.map_cons]

theorem memtest_write_loop_zero (width pat count : Nat) :
    memtest_write_loop width pat count 0 = memtestWrites width pat count := by
  rw [memtest_write_loop_eq width pat count (count - 0) 0 rfl, memtestWrites, Nat.sub_zero]

theorem memtest_read_loop_pass (read : Nat → Nat) (width count pat : Nat)
    (record : Diag → Nat → Nat → Diag) :
    ∀ (n i : Nat) (d : Diag), count - i = n → (∀ j, i ≤ j → j < count → read j = pat) →
      memtest_read_loop read width count pat record d i = (d, memtestReads read width i n) := by
  intro n
  induction n with
  | zero =>
    intro i d hn _
    rw [memtest_read_loop]
    have h : ¬ i < count := by omega
    simp [h, memtestReads]
  | succ m ih =>
    intro i d hn hyp
    have h : i < count := by omega
    have hv : read i = pat := hyp i (Nat.le_refl i) h
    rw [memtest_read_loop, dif_pos h]
    simp only [hv, ne_eq, not_true_eq_false, if_neg, ite_false]
    rw [ih (i + 1) d (by omega) (fun j h1 h2 => hyp j (by omega) h2)]
    simp [memtestReads, List.range'_succ, hv]

theorem memtest_read_loop_fail (read : Nat → Nat) (width count pat : Nat)
    (record : Diag → Nat → Nat → Diag) :
    ∀ (n i : Nat) (d : Diag) (k : Nat), k - i = n → i ≤ k → k < count →
      (∀ j, i ≤ j → j < k → read j = pat) → read k ≠ pat →
      memtest_read_loop read width count pat record d i =
        (record d (OSPI_MAP_ADDR + width * k) (read k), memtestReads read width i (n + 1)) := by
  intro n
  induction n with
  | zero =>
    intro i d k hn hik hk hpre hne
    have hik' : i = k := by omega
    subst hik'
    rw [memtest_read_loop, dif_pos hk]
    simp [hne, memtestReads, List.range'_succ]
  | succ m ih =>
    intro i d k hn hik hk hpre hne
    have h : i < count := by omega
    have hv : read i = pat := hpre i (Nat.le_refl i) (by omega)
    rw [memtest_read_loop, dif_pos h]
    simp only [hv, ne_eq, not_true_eq_false, if_neg, ite_false]
    rw [ih (i + 1) d k (by omega) (by omega) hk (fun j h1 h2 => hpre j (by omega) h2) hne]
    simp [memtestReads, List.range'_succ, hv]

theorem memtest_read_loop_shape (read : Nat → Nat) (width count pat : Nat)
    (record : Diag → Nat → Nat → Diag) :
    ∀ (n i : Nat) (d : Diag), count - i = n →
      ∃ m, m ≤ n ∧
        (memtest_read_loop read width count pat record d i).2 = memtestReads read width i m := by
  intro n
  induction n with
  | zero =>
    intro i d hn
    refine ⟨0, Nat.le_refl 0, ?_⟩
    rw [memtest_read_loop]
    have h : ¬ i < count := by omega
    simp [h, memtestReads]
  | succ m ih =>
    intro i d hn
    have h : i < count := by omega
    by_cases hv : read i = pat
    · obtain ⟨m', hm', htr⟩ := ih (i + 1) d (by omega)
      refine ⟨m' + 1, by omega, ?_⟩
      rw [memtest_read_loop, dif_pos h]
      simp only [hv, ne_eq, not_true_eq_false, if_neg, ite_false]
      rw [htr]
      simp [memtestReads, List.range'_succ, hv]
    · refine ⟨1, by omega, ?_⟩
      rw [memtest_read_loop, dif_pos h]
      simp [hv, memtestReads, List.range'_succ]

/-- Position of the first mismatching cell, when some cell mismatches. -/
theorem first_mismatch (read : Nat → Nat) (pat count : Nat)
    (h : ¬ ∀ j, j < count → read j = pat) :
    ∃ k, k < count ∧ (∀ j, j < k → read j = pat) ∧ read k ≠ pat := by
  push_neg at h
  obtain ⟨k0, hk0, hne0⟩ := h
  have hex : ∃ k, k < count ∧ read k ≠ pat := ⟨k0, hk0, hne0⟩
  refine ⟨Nat.find hex, (Nat.find_spec hex).1, ?_, (Nat.find_spec hex).2⟩
  intro j hj
  by_contra hne
  have hjc : j < count := lt_trans hj (Nat.find_spec hex).1
  exact Nat.find_min hex hj ⟨hjc, hne⟩

/-! ## Per-granularity memory-test lemmas -/

/-- Every 32-bit cell of the window reads the pattern back. -/
def allPass32 (env : Env) : Prop :=
  ∀ j, j < SPIRAM_SIZE / 4 → env.read32 j = spiram_pattern32

/-- Every 16-bit cell of the window reads the pattern back. -/
def allPass16 (env : Env) : Prop :=
  ∀ j, j < SPIRAM_SIZE / 2 → env.read16 j = spiram_pattern16

/-- Every byte of the window reads the pattern back. -/
def allPass8 (env : Env) : Prop :=
  ∀ j, j < SPIRAM_SIZE → env.read8 j = spiram_pattern8

theorem spiram_memtest32_pass (env : Env) (d : Diag) (h : allPass32 env) :
    spiram_memtest32 env d =
      (d, memtestWrites 4 spiram_pattern32 (SPIRAM_SIZE / 4) ++
          memtestReads env.read32 4 0 (SPIRAM_SIZE / 4)) := by
  unfold spiram_memtest32
  rw [memtest_read_loop_pass env.read32 4 (SPIRAM_SIZE / 4) spiram_pattern32 record32
        (SPIRAM_SIZE / 4) 0 d (Nat.sub_zero _) (fun j _ h2 => h j h2),
      memtest_write_loop_zero]

theorem spiram_memtest16_pass (env : Env) (d : Diag) (h : allPass16 env) :
    spiram_memtest16 env d =
      (d, memtestWrites 2 spiram_pattern16 (SPIRAM_SIZE / 2) ++
          memtestReads env.read16 2 0 (SPIRAM_SIZE / 2)) := by
  unfold spiram_memtest16
  rw [memtest_read_loop_pass env.read16 2 (SPIRAM_SIZE / 2) spiram_pattern16 record16
        (SPIRAM_SIZE / 2) 0 d (Nat.sub_zero _) (fun j _ h2 => h j h2),
      memtest_write_loop_zero]

theorem spiram_memtest8_pass (env : Env) (d : Diag) (h : allPass8 env) :
    spiram_memtest8 env d =
      (d, memtestWrites 1 spiram_pattern8 SPIRAM_SIZE ++
          memtestReads env.read8 1 0 SPIRAM_SIZE) := by
  unfold spiram_memtest8
  rw [memtest_read_loop_pass env.read8 1 SPIRAM_SIZE spiram_pattern8 record8
        SPIRAM_SIZE 0 d (Nat.sub_zero _) (fun j _ h2 => h j h2),
      memtest_write_loop_zero]

theorem spiram_memtest32_fail (env : Env) (d : Diag) (k : Nat) (hk : k < SPIRAM_SIZE / 4)
    (hpre : ∀ j, j < k → env.read32 j = spiram_pattern32)
    (hne : env.read32 k ≠ spiram_pattern32) :
    spiram_memtest32 env d =
      (record32 d (OSPI_MAP_ADDR + 4 * k) (env.read32 k),
       memtestWrites 4 spiram_pattern32 (SPIRAM_SIZE / 4) ++
         memtestReads env.read32 4 0 (k + 1)) := by
  unfold spiram_memtest32
  rw [memtest_read_loop_fail env.read32 4 (SPIRAM_SIZE / 4) spiram_pattern32 record32
        (k - 0) 0 d k rfl (Nat.zero_le k) hk (fun j _ h2 => hpre j h2) hne,
      memtest_write_loop_zero]
  simp

theorem spiram_memtest16_fail (env : Env) (d : Diag) (k : Nat) (hk : k < SPIRAM_SIZE / 2)
    (hpre : ∀ j, j < k → env.read16 j = spiram_pattern16)
    (hne : env.read16 k ≠ spiram_pattern16) :
    spiram_memtest16 env d =
      (record16 d (OSPI_MAP_ADDR + 2 * k) (env.read16 k),
       memtestWrites 2 spiram_pattern16 (SPIRAM_SIZE / 2) ++
         memtestReads env.read16 2 0 (k + 1)) := by
  unfold spiram_memtest16
  rw [memtest_read_loop_fail env.read16 2 (SPIRAM_SIZE / 2) spiram_pattern16 record16
        (k - 0) 0 d k rfl (Nat.zero_le k) hk (fun j _ h2 => hpre j h2) hne,
      memtest_write_loop_zero]
  simp

theorem spiram_memtest8_fail (env : Env) (d : Diag) (k : Nat) (hk : k < SPIRAM_SIZE)
    (hpre : ∀ j, j < k → env.read8 j = spiram_pattern8)
    (hne : env.read8 k ≠ spiram_pattern8) :
    spiram_memtest8 env d =
      (record8 d (OSPI_MAP_ADDR + 1 * k) (env.read8 k),
       memtestWrites 1 spiram_pattern8 SPIRAM_SIZE ++
         memtestReads env.read8 1 0 (k + 1)) := by
  unfold spiram_memtest8
  rw [memtest_read_loop_fail env.read8 1 SPIRAM_SIZE spiram_pattern8 record8
        (k - 0) 0 d k rfl (Nat.zero_le k) hk (fun j _ h2 => hpre j h2) hne,
      memtest_write_loop_zero]
  simp

instance (env : Env) : Decidable (allPass32 env) :=
  inferInstanceAs (Decidable (∀ j, j < SPIRAM_SIZE / 4 → env.read32 j = spiram_pattern32))

instance (env : Env) : Decidable (allPass16 env) :=
  inferInstanceAs (Decidable (∀ j, j < SPIRAM_SIZE / 2 → env.read16 j = spiram_pattern16))

instance (env : Env) : Decidable (allPass8 env) :=
  inferInstanceAs (Decidable (∀ j, j < SPIRAM_SIZE → env.read8 j = spiram_pattern8))

theorem spiram_memtest32_err (env : Env) (d : Diag) :
    (spiram_memtest32 env d).1.err =
      if d.err = SpiramErr.ok then
        (if allPass32 env then SpiramErr.ok else SpiramErr.memtest32)
      else d.err := by
  by_cases h : allPass32 env
  · rw [spiram_memtest32_pass env d h]
    by_cases hok : d.err = SpiramErr.ok <;> simp [h, hok]
  · obtain ⟨k, hk, hpre, hne⟩ := first_mismatch env.read32 spiram_pattern32 (SPIRAM_SIZE / 4) h
    rw [spiram_memtest32_fail env d k hk hpre hne]
    by_cases hok : d.err = SpiramErr.ok <;> simp [h, hok, record32, spiram_error]

theorem spiram_memtest16_err (env : Env) (d : Diag) :
    (spiram_memtest16 env d).1.err =
      if d.err = SpiramErr.ok then
        (if allPass16 env then SpiramErr.ok else SpiramErr.memtest16)
      else d.err := by
  by_cases h : allPass16 env
  · rw [spiram_memtest16_pass env d h]
    by_cases hok : d.err = SpiramErr.ok <;> simp [h, hok]
  · obtain ⟨k, hk, hpre, hne⟩ := first_mismatch env.read16 spiram_pattern16 (SPIRAM_SIZE / 2) h
    rw [spiram_memtest16_fail env d k hk hpre hne]
    by_cases hok : d.err = SpiramErr.ok <;> simp [h, hok, record16, spiram_error]

theorem spiram_memtest8_err (env : Env) (d : Diag) :
    (spiram_memtest8 env d).1.err =
      if d.err = SpiramErr.ok then
        (if allPass8 env then SpiramErr.ok else SpiramErr.memtest8)
      else d.err := by
  by_cases h : allPass8 env
  · rw [spiram_memtest8_pass env d h]
    by_cases hok : d.err = SpiramErr.ok <;> simp [h, hok]
  · obtain ⟨k, hk, hpre, hne⟩ := first_mismatch env.read8 spiram_pattern8 SPIRAM_SIZE h
    rw [spiram_memtest8_fail env d k hk hpre hne]
    by_cases hok : d.err = SpiramErr.ok <;> simp [h, hok, record8, spiram_error]

/-! ## Lemmas about spiram_test -/

theorem spiram_test_trace (fast : Bool) (env : Env) (d : Diag) :
    (spiram_test fast env d).1.2 =
      (spiram_memtest32 env d).2 ++
      (spiram_memtest16 env (spiram_memtest32 env d).1).2 ++
      (spiram_memtest8 env (spiram_memtest16 env (spiram_memtest32 env d).1).1).2 := rfl

theorem spiram_test_diag (fast : Bool) (env : Env) (d : Diag) :
    (spiram_test fast env d).1.1 =
      spiram_error SpiramErr.memtestPass
        (spiram_memtest8 env (spiram_memtest16 env (spiram_memtest32 env d).1).1).1 := rfl

theorem spiram_test_result (fast : Bool) (env : Env) (d : Diag) :
    (spiram_test fast env d).2 =
      decide (((spiram_test fast env d).1.1).err = SpiramErr.memtestPass) := rfl

theorem spiram_test_err (fast : Bool) (env : Env) (d : Diag) :
    ((spiram_test fast env d).1.1).err =
      if d.err = SpiramErr.ok then
        (if allPass32 env then
          (if allPass16 env then
            (if allPass8 env then SpiramErr.memtestPass else SpiramErr.memtest8)
           else SpiramErr.memtest16)
         else SpiramErr.memtest32)
      else d.err := by
  have e32 := spiram_memtest32_err env d
  have e16 := spiram_memtest16_err env (spiram_memtest32 env d).1
  have e8 := spiram_memtest8_err env (spiram_memtest16 env (spiram_memtest32 env d).1).1
  rw [spiram_test_diag, spiram_error]
  by_cases hok : d.err = SpiramErr.ok <;>
    by_cases hA : allPass32 env <;>
      by_cases hB : allPass16 env <;>
        by_cases hC : allPass8 env <;>
          (simp only [hok, hA, hB, hC, if_true, if_false, ite_true, ite_false] at e32
           simp_all)

/-! ## Lemmas about spiram_clear -/

/-- The events of the full clearing pass, in ascending address order, as a
function of the transaction index. -/
def clearChunk (env : Env) (j : Nat) : List Event :=
  [Event.command { spiram_clear_cmd with address := 32 * j } (env.okClearCmd (32 * j)),
   Event.transmit clearSrc (env.okClearXmit (32 * j))]

theorem spiram_clear_loop_trace (env : Env) :
    ∀ (n k : Nat) (d : Diag), SPIRAM_SIZE / 32 - k = n →
      (spiram_clear_loop env d (32 * k)).2 =
        ((List.range' k n).map (clearChunk env)).flatten := by
  have hsz : SPIRAM_SIZE = 0x800000 := rfl
  have hdiv : SPIRAM_SIZE / 32 = 0x40000 := by norm_num [hsz]
  intro n
  induction n with
  | zero =>
    intro k d hn
    rw [spiram_clear_loop]
    have h : ¬ 32 * k < SPIRAM_SIZE := by omega
    simp [h]
  | succ m ih =>
    intro k d hn
    have h : 32 * k < SPIRAM_SIZE := by omega
    have h32 : 32 * k + 32 = 32 * (k + 1) := by ring
    have ih' : ∀ d' : Diag, (spiram_clear_loop env d' (32 * (k + 1))).2 =
        ((List.range' (k + 1) m).map (clearChunk env)).flatten :=
      fun d' => ih (k + 1) d' (by omega)
    rw [spiram_clear_loop, dif_pos h]
    simp only [h32, ih', List.range'_succ, List.map_cons, List.flatten_cons, clearChunk,
      List.cons_append, List.nil_append]

theorem spiram_clear_trace (env : Env) (d : Diag) :
    (spiram_clear env d).2 =
      ((List.range' 0 (SPIRAM_SIZE / 32)).map (clearChunk env)).flatten := by
  have h := spiram_clear_loop_trace env (SPIRAM_SIZE / 32) 0 d rfl
  simpa [spiram_clear] using h

theorem spiram_clear_loop_diag_notok (env : Env) :
    ∀ (n : Nat) (addr : Nat) (d : Diag), SPIRAM_SIZE - addr ≤ n → d.err ≠ SpiramErr.ok →
      (spiram_clear_loop env d addr).1 = d := by
  intro n
  induction n with
  | zero =>
    intro addr d hn hne
    rw [spiram_clear_loop]
    have h : ¬ addr < SPIRAM_SIZE := by omega
    simp [h]
  | succ m ih =>
    intro addr d hn hne
    by_cases h : addr < SPIRAM_SIZE
    · rw [spiram_clear_loop, dif_pos h]
      simp only [spiram_error_noop _ _ hne, ite_self]
      exact ih (addr + 32) d (by omega) hne
    · rw [spiram_clear_loop, dif_neg h]

theorem spiram_clear_loop_diag_allok (env : Env) :
    ∀ (n k : Nat) (d : Diag), SPIRAM_SIZE / 32 - k = n →
      (∀ j, k ≤ j → j < SPIRAM_SIZE / 32 →
        env.okClearCmd (32 * j) = true ∧ env.okClearXmit (32 * j) = true) →
      (spiram_clear_loop env d (32 * k)).1 = d := by
  have hsz : SPIRAM_SIZE = 0x800000 := rfl
  have hdiv : SPIRAM_SIZE / 32 = 0x40000 := by norm_num [hsz]
  intro n
  induction n with
  | zero =>
    intro k d hn _
    rw [spiram_clear_loop]
    have h : ¬ 32 * k < SPIRAM_SIZE := by omega
    simp [h]
  | succ m ih =>
    intro k d hn hok
    have h : 32 * k < SPIRAM_SIZE := by omega
    obtain ⟨hc, hx⟩ := hok k (Nat.le_refl k) (by omega)
    rw [spiram_clear_loop, dif_pos h]
    simp only [hc, hx, if_true, ite_true]
    have h32 : 32 * k + 32 = 32 * (k + 1) := by ring
    rw [h32]
    exact ih (k + 1) d (by omega) (fun j h1 h2 => hok j (by omega) h2)

theorem spiram_clear_loop_diag_fail (env : Env) :
    ∀ (n k : Nat) (d : Diag), SPIRAM_SIZE / 32 - k = n → d.err = SpiramErr.ok →
      (∃ j, k ≤ j ∧ j < SPIRAM_SIZE / 32 ∧
        (env.okClearCmd (32 * j) = false ∨ env.okClearXmit (32 * j) = false)) →
      (spiram_clear_loop env d (32 * k)).1 = { d with err := SpiramErr.clear } := by
  have hsz : SPIRAM_SIZE = 0x800000 := rfl
  have hdiv : SPIRAM_SIZE / 32 = 0x40000 := by norm_num [hsz]
  intro n
  induction n with
  | zero =>
    intro k d hn hok hex
    obtain ⟨j, h1, h2, _⟩ := hex
    omega
  | succ m ih =>
    intro k d hn hok hex
    have h : 32 * k < SPIRAM_SIZE := by omega
    have h32 : 32 * k + 32 = 32 * (k + 1) := by ring
    by_cases hstep : env.okClearCmd (32 * k) = true ∧ env.okClearXmit (32 * k) = true
    · obtain ⟨hc, hx⟩ := hstep
      rw [spiram_clear_loop, dif_pos h]
      simp only [hc, hx, if_true, ite_true]
      rw [h32]
      refine ih (k + 1) d (by omega) hok ?_
      obtain ⟨j, hj1, hj2, hj3⟩ := hex
      refine ⟨j, ?_, hj2, hj3⟩
      rcases Nat.eq_or_lt_of_le hj1 with heq | hlt
      · subst heq
        rcases hj3 with hf | hf
        · rw [hc] at hf; cases hf
        · rw [hx] at hf; cases hf
      · omega
    · rw [spiram_clear_loop, dif_pos h]
      have hrec : (if env.okClearXmit (32 * k) then
          (if env.okClearCmd (32 * k) then d else spiram_error SpiramErr.clear d)
          else spiram_error SpiramErr.clear
            (if env.okClearCmd (32 * k) then d else spiram_error SpiramErr.clear d)) =
          { d with err := SpiramErr.clear } := by
        rcases Bool.eq_false_or_eq_true (env.okClearCmd (32 * k)) with hc | hc <;>
          rcases Bool.eq_false_or_eq_true (env.okClearXmit (32 * k)) with hx | hx <;>
            simp_all [spiram_error]
      simp only [hrec]
      rw [h32]
      exact spiram_clear_loop_diag_notok env (SPIRAM_SIZE - 32 * (k + 1)) (32 * (k + 1)) _
        (Nat.le_refl _) (by simp)

/-! ## Lemmas about mode negotiation and mapping -/

/-- The first failing step of spiram_quad_on, in source order. -/
def quadOnFirstErr (env : Env) : SpiramErr :=
  if env.okQspiRstEn = false then SpiramErr.qspiRstEn
  else if env.okQspiRst = false then SpiramErr.qspiRst
  else if env.okSpiRstEn = false then SpiramErr.spiRstEn
  else if env.okSpiRst = false then SpiramErr.spiRst
  else if env.okReadIdCmd = false then SpiramErr.readidCmd
  else if env.okReadIdDta = false then SpiramErr.readidDta
  else if env.okQuadOn = false then SpiramErr.quadOn
  else SpiramErr.ok

/-- The first failing phase of ospi_mmap, in source order. -/
def mmapFirstErr (env : Env) : SpiramErr :=
  if env.okWriteCfg = false then SpiramErr.ospiWriteConfig
  else if env.okReadCfg = false then SpiramErr.ospiReadConfig
  else if env.okMmap = false then SpiramErr.ospiMmap
  else SpiramErr.ok

theorem spiram_quad_on_trace (env : Env) (d : Diag) :
    (spiram_quad_on env d).2 =
      [Event.command quadOnCmd1 env.okQspiRstEn,
       Event.command quadOnCmd2 env.okQspiRst,
       Event.command quadOnCmd3 env.okSpiRstEn,
       Event.command quadOnCmd4 env.okSpiRst,
       Event.command readIdCmd env.okReadIdCmd,
       Event.receive 8 env.okReadIdDta,
       Event.command quadOnCmd5 env.okQuadOn] := rfl

theorem spiram_quad_on_err (env : Env) (d : Diag) :
    ((spiram_quad_on env d).1).err =
      if d.err = SpiramErr.ok then quadOnFirstErr env else d.err := by
  by_cases hok : d.err = SpiramErr.ok <;>
    cases h1 : env.okQspiRstEn <;> cases h2 : env.okQspiRst <;>
      cases h3 : env.okSpiRstEn <;> cases h4 : env.okSpiRst <;>
        cases h5 : env.okReadIdCmd <;> cases h6 : env.okReadIdDta <;>
          cases h7 : env.okQuadOn <;>
            simp_all [spiram_quad_on, spiram_read_id, quadOnFirstErr, spiram_error]

theorem spiram_quad_on_allok (env : Env) (d : Diag)
    (h1 : env.okQspiRstEn = true) (h2 : env.okQspiRst = true)
    (h3 : env.okSpiRstEn = true) (h4 : env.okSpiRst = true)
    (h5 : env.okReadIdCmd = true) (h6 : env.okReadIdDta = true)
    (h7 : env.okQuadOn = true) :
    (spiram_quad_on env d).1 = { d with id := env.idBytes } := by
  simp [spiram_quad_on, spiram_read_id, h1, h2, h3, h4, h5, h6, h7]

theorem ospi_mmap_trace (env : Env) (d : Diag) :
    (ospi_mmap env d).2 =
      [Event.mpuDisableAll,
       Event.command mmapWriteCfgCmd env.okWriteCfg,
       Event.command mmapReadCfgCmd env.okReadCfg,
       Event.memoryMapped true 1 env.okMmap,
       Event.mpuEnableMapped] := rfl

theorem ospi_mmap_err (env : Env) (d : Diag) :
    ((ospi_mmap env d).1).err =
      if d.err = SpiramErr.ok then mmapFirstErr env else d.err := by
  by_cases hok : d.err = SpiramErr.ok <;>
    cases h1 : env.okWriteCfg <;> cases h2 : env.okReadCfg <;> cases h3 : env.okMmap <;>
      simp_all [ospi_mmap, mmapFirstErr, spiram_error]

theorem ospi_mmap_allok (env : Env) (d : Diag)
    (h1 : env.okWriteCfg = true) (h2 : env.okReadCfg = true) (h3 : env.okMmap = true) :
    (ospi_mmap env d).1 = d := by
  simp [ospi_mmap, h1, h2, h3]

theorem ospi_init_err (env : Env) (d : Diag) :
    ((ospi_init env d).1).err =
      if d.err = SpiramErr.ok then
        (if env.okOspiInit = false then SpiramErr.ospiInit else SpiramErr.ok)
      else d.err := by
  by_cases hok : d.err = SpiramErr.ok <;> cases h1 : env.okOspiInit <;>
    simp_all [ospi_init, spiram_error]

/-! ## Lemmas about spiram_init -/

theorem spiram_init_result (env : Env) (d : Diag) : (spiram_init env d).2 = true := rfl

theorem spiram_init_trace (env : Env) (d : Diag) :
    (spiram_init env d).1.2 =
      (ospi_init env d).2 ++
      ((spiram_quad_on env (ospi_init env d).1).2 ++
       ((spiram_clear env (spiram_quad_on env (ospi_init env d).1).1).2 ++
        ((ospi_mmap env (spiram_clear env (spiram_quad_on env (ospi_init env d).1).1).1).2 ++
         (spiram_test false env
           (ospi_mmap env (spiram_clear env (spiram_quad_on env (ospi_init env d).1).1).1).1).1.2))) := by
  simp [spiram_init]

theorem spiram_init_diag (env : Env) (d : Diag) :
    (spiram_init env d).1.1 =
      (spiram_test false env
        (ospi_mmap env (spiram_clear env (spiram_quad_on env (ospi_init env d).1).1).1).1).1.1 := rfl

/-! ## Event classifiers and ordering predicates -/

/-- A bus-configuration transaction: a command with a non-COMMON operation
type (write-path or read-path configuration) or the mapping activation. -/
def isBusConfigTx : Event → Bool
  | Event.command c _ => decide (c.operationType ≠ OpType.commonCfg)
  | Event.memoryMapped _ _ _ => true
  | _ => false

def isMpuDisable : Event → Bool
  | Event.mpuDisableAll => true
  | _ => false

def isMpuEnable : Event → Bool
  | Event.mpuEnableMapped => true
  | _ => false

/-- A successful mapping-activation call. -/
def isMappedOk : Event → Bool
  | Event.memoryMapped _ _ ok => ok
  | _ => false

/-- A mapping-activation call, successful or not. -/
def isMappedCall : Event → Bool
  | Event.memoryMapped _ _ _ => true
  | _ => false

/-- A load or store into the mapped window. -/
def isMemEvt : Event → Bool
  | Event.memWrite _ _ _ => true
  | Event.memRead _ _ _ => true
  | _ => false

/-- An event that is neither a bus-configuration transaction, nor the MPU
window enable, nor a mapping-activation call. -/
def nonOrderingEvt (e : Event) : Bool :=
  !(isBusConfigTx e || isMpuEnable e || isMappedCall e)

/-- Every occurrence of a `target` event in the list is preceded by some
`trigger` event (`seen` carries whether a trigger already occurred). -/
def precededBy (trigger target : Event → Bool) : Bool → List Event → Prop
  | _, [] => True
  | seen, e :: tr => (target e = true → seen = true) ∧ precededBy trigger target (seen || trigger e) tr

/-- Every bus-configuration transaction is preceded by blocking all MPU
access to the controller's address space. -/
def blockedBeforeConfig (tr : List Event) : Prop :=
  precededBy isMpuDisable isBusConfigTx false tr

/-- The MPU window enable only happens after a successful mapping
activation. -/
def enableOnlyAfterMapped (tr : List Event) : Prop :=
  precededBy isMappedOk isMpuEnable false tr

/-- The MPU window enable only happens after the mapping-activation call
was issued (successful or not). -/
def enableOnlyAfterMapCall (tr : List Event) : Prop :=
  precededBy isMappedCall isMpuEnable false tr

theorem precededBy_append (trigger target : Event → Bool) :
    ∀ (X Y : List Event) (s : Bool),
      precededBy trigger target s (X ++ Y) ↔
        (precededBy trigger target s X ∧ precededBy trigger target (s || X.any trigger) Y) := by
  intro X
  induction X with
  | nil => intro Y s; simp [precededBy]
  | cons e X ih =>
    intro Y s
    simp [precededBy, ih, List.any_cons, and_assoc, Bool.or_assoc]

theorem precededBy_true (trigger target : Event → Bool) :
    ∀ X, precededBy trigger target true X := by
  intro X
  induction X with
  | nil => simp [precededBy]
  | cons e X ih => simp [precededBy, ih]

theorem precededBy_no_target (trigger target : Event → Bool) :
    ∀ (X : List Event) (s : Bool), (∀ e ∈ X, target e = false) → precededBy trigger target s X := by
  intro X
  induction X with
  | nil => intro s _; simp [precededBy]
  | cons e X ih =>
    intro s h
    refine ⟨fun ht => ?_, ih _ (fun x hx => h x (List.mem_cons_of_mem e hx))⟩
    rw [h e (List.mem_cons_self e X)] at ht
    cases ht

/-! ## Shape of the traces of each bring-up phase -/

theorem spiram_memtest32_trace (env : Env) (d : Diag) :
    (spiram_memtest32 env d).2 =
      memtest_write_loop 4 spiram_pattern32 (SPIRAM_SIZE / 4) 0 ++
      (memtest_read_loop env.read32 4 (SPIRAM_SIZE / 4) spiram_pattern32 record32 d 0).2 := rfl

theorem spiram_memtest16_trace (env : Env) (d : Diag) :
    (spiram_memtest16 env d).2 =
      memtest_write_loop 2 spiram_pattern16 (SPIRAM_SIZE / 2) 0 ++
      (memtest_read_loop env.read16 2 (SPIRAM_SIZE / 2) spiram_pattern16 record16 d 0).2 := rfl

theorem spiram_memtest8_trace (env : Env) (d : Diag) :
    (spiram_memtest8 env d).2 =
      memtest_write_loop 1 spiram_pattern8 SPIRAM_SIZE 0 ++
      (memtest_read_loop env.read8 1 SPIRAM_SIZE spiram_pattern8 record8 d 0).2 := rfl

theorem memtestWrites_isMem (width pat count : Nat) :
    ∀ e ∈ memtestWrites width pat count, isMemEvt e = true := by
  intro e he
  simp only [memtestWrites, List.mem_map] at he
  obtain ⟨j, _, rfl⟩ := he
  rfl

theorem memtestReads_isMem (read : Nat → Nat) (width lo n : Nat) :
    ∀ e ∈ memtestReads read width lo n, isMemEvt e = true := by
  intro e he
  simp only [memtestReads, List.mem_map] at he
  obtain ⟨j, _, rfl⟩ := he
  rfl

theorem memtest_read_loop_isMem (read : Nat → Nat) (width count pat : Nat)
    (record : Diag → Nat → Nat → Diag) (d : Diag) :
    ∀ e ∈ (memtest_read_loop read width count pat record d 0).2, isMemEvt e = true := by
  obtain ⟨m, _, htr⟩ :=
    memtest_read_loop_shape read width count pat record (count - 0) 0 d rfl
  rw [htr]
  exact memtestReads_isMem read width 0 m

theorem spiram_memtest32_isMem (env : Env) (d : Diag) :
    ∀ e ∈ (spiram_memtest32 env d).2, isMemEvt e = true := by
  intro e he
  rw [spiram_memtest32_trace, memtest_write_loop_zero] at he
  rcases List.mem_append.1 he with h | h
  · exact memtestWrites_isMem _ _ _ e h
  · exact memtest_read_loop_isMem _ _ _ _ _ _ e h

theorem spiram_memtest16_isMem (env : Env) (d : Diag) :
    ∀ e ∈ (spiram_memtest16 env d).2, isMemEvt e = true := by
  intro e he
  rw [spiram_memtest16_trace, memtest_write_loop_zero] at he
  rcases List.mem_append.1 he with h | h
  · exact memtestWrites_isMem _ _ _ e h
  · exact memtest_read_loop_isMem _ _ _ _ _ _ e h

theorem spiram_memtest8_isMem (env : Env) (d : Diag) :
    ∀ e ∈ (spiram_memtest8 env d).2, isMemEvt e = true := by
  intro e he
  rw [spiram_memtest8_trace, memtest_write_loop_zero] at he
  rcases List.mem_append.1 he with h | h
  · exact memtestWrites_isMem _ _ _ e h
  · exact memtest_read_loop_isMem _ _ _ _ _ _ e h

theorem spiram_test_trace_isMem (fast : Bool) (env : Env) (d : Diag) :
    ∀ e ∈ (spiram_test fast env d).1.2, isMemEvt e = true := by
  intro e he
  rw [spiram_test_trace] at he
  rcases List.mem_append.1 he with h | h
  · rcases List.mem_append.1 h with h' | h'
    · exact spiram_memtest32_isMem _ _ e h'
    · exact spiram_memtest16_isMem _ _ e h'
  · exact spiram_memtest8_isMem _ _ e h

theorem spiram_clear_trace_shape (env : Env) (d : Diag) :
    ∀ e ∈ (spiram_clear env d).2,
      (∃ a b, e = Event.command { spiram_clear_cmd with address := a } b) ∨
      (∃ b, e = Event.transmit clearSrc b) := by
  intro e he
  rw [spiram_clear_trace] at he
  rw [List.mem_flatten] at he
  obtain ⟨l, hl, hel⟩ := he
  rw [List.mem_map] at hl
  obtain ⟨j, _, rfl⟩ := hl
  simp only [clearChunk, List.mem_cons, List.mem_singleton] at hel
  rcases hel with rfl | rfl | h
  · exact Or.inl ⟨32 * j, env.okClearCmd (32 * j), rfl⟩
  · exact Or.inr ⟨env.okClearXmit (32 * j), rfl⟩
  · cases h

/-! ## The traces of the phases before mapping contain no ordering events -/

theorem isMemEvt_nonOrdering (e : Event) (h : isMemEvt e = true) : nonOrderingEvt e = true := by
  cases e <;> simp_all [isMemEvt, nonOrderingEvt, isBusConfigTx, isMpuEnable, isMappedCall]

theorem ospi_init_nonOrdering (env : Env) (d : Diag) :
    ∀ e ∈ (ospi_init env d).2, nonOrderingEvt e = true := by
  intro e he
  simp only [ospi_init, List.mem_singleton] at he
  subst he
  rfl

theorem spiram_quad_on_nonOrdering (env : Env) (d : Diag) :
    ∀ e ∈ (spiram_quad_on env d).2, nonOrderingEvt e = true := by
  intro e he
  rw [spiram_quad_on_trace] at he
  simp only [List.mem_cons, List.mem_singleton] at he
  rcases he with rfl | rfl | rfl | rfl | rfl | rfl | rfl | h
  · rfl
  · rfl
  · rfl
  · rfl
  · rfl
  · rfl
  · rfl
  · cases h

theorem spiram_clear_nonOrdering (env : Env) (d : Diag) :
    ∀ e ∈ (spiram_clear env d).2, nonOrderingEvt e = true := by
  intro e he
  rcases spiram_clear_trace_shape env d e he with ⟨a, b, rfl⟩ | ⟨b, rfl⟩
  · rfl
  · rfl

theorem spiram_test_nonOrdering (fast : Bool) (env : Env) (d : Diag) :
    ∀ e ∈ (spiram_test fast env d).1.2, nonOrderingEvt e = true :=
  fun e he => isMemEvt_nonOrdering e (spiram_test_trace_isMem fast env d e he)

theorem nonOrdering_busConfig (e : Event) (h : nonOrderingEvt e = true) :
    isBusConfigTx e = false := by
  simp only [nonOrderingEvt, Bool.not_eq_true', Bool.or_eq_false_iff] at h
  exact h.1.1

theorem nonOrdering_mpuEnable (e : Event) (h : nonOrderingEvt e = true) :
    isMpuEnable e = false := by
  simp only [nonOrderingEvt, Bool.not_eq_true', Bool.or_eq_false_iff] at h
  exact h.1.2

theorem nonOrdering_mappedCall (e : Event) (h : nonOrderingEvt e = true) :
    isMappedCall e = false := by
  simp only [nonOrderingEvt, Bool.not_eq_true', Bool.or_eq_false_iff] at h
  exact h.2

theorem nonOrdering_mappedOk (e : Event) (h : nonOrderingEvt e = true) :
    isMappedOk e = false := by
  have hc := nonOrdering_mappedCall e h
  cases e <;> simp_all [isMappedCall, isMappedOk]

theorem seg_any_mappedOk_false (X : List Event) (h : ∀ e ∈ X, nonOrderingEvt e = true) :
    X.any isMappedOk = false :=
  List.any_eq_false.mpr (fun e he => by simp [nonOrdering_mappedOk e (h e he)])

/-! ## Ordering of MPU reconfiguration versus bus configuration -/

theorem spiram_init_blocked (env : Env) (d : Diag) :
    blockedBeforeConfig ((spiram_init env d).1.2) := by
  unfold blockedBeforeConfig
  rw [spiram_init_trace, precededBy_append]
  refine ⟨precededBy_no_target _ _ _ _
    (fun e he => nonOrdering_busConfig e (ospi_init_nonOrdering env d e he)), ?_⟩
  rw [precededBy_append]
  refine ⟨precededBy_no_target _ _ _ _
    (fun e he => nonOrdering_busConfig e (spiram_quad_on_nonOrdering env _ e he)), ?_⟩
  rw [precededBy_append]
  refine ⟨precededBy_no_target _ _ _ _
    (fun e he => nonOrdering_busConfig e (spiram_clear_nonOrdering env _ e he)), ?_⟩
  rw [precededBy_append]
  constructor
  · rw [ospi_mmap_trace]
    simp [precededBy, isBusConfigTx, isMpuDisable]
  · exact precededBy_no_target _ _ _ _
      (fun e he => nonOrdering_busConfig e (spiram_test_nonOrdering false env _ e he))

theorem spiram_init_enable_after_call (env : Env) (d : Diag) :
    enableOnlyAfterMapCall ((spiram_init env d).1.2) := by
  unfold enableOnlyAfterMapCall
  rw [spiram_init_trace, precededBy_append]
  refine ⟨precededBy_no_target _ _ _ _
    (fun e he => nonOrdering_mpuEnable e (ospi_init_nonOrdering env d e he)), ?_⟩
  rw [precededBy_append]
  refine ⟨precededBy_no_target _ _ _ _
    (fun e he => nonOrdering_mpuEnable e (spiram_quad_on_nonOrdering env _ e he)), ?_⟩
  rw [precededBy_append]
  refine ⟨precededBy_no_target _ _ _ _
    (fun e he => nonOrdering_mpuEnable e (spiram_clear_nonOrdering env _ e he)), ?_⟩
  rw [precededBy_append]
  constructor
  · rw [ospi_mmap_trace]
    simp [precededBy, isMpuEnable, isMappedCall]
  · rw [ospi_mmap_trace]
    have hany : ([Event.mpuDisableAll,
        Event.command mmapWriteCfgCmd env.okWriteCfg,
        Event.command mmapReadCfgCmd env.okReadCfg,
        Event.memoryMapped true 1 env.okMmap,
        Event.mpuEnableMapped]).any isMappedCall = true := by
      simp [isMappedCall]
    rw [hany, Bool.or_true]
    exact precededBy_true _ _ _

theorem seg_any_mappedOk_ospi_init (env : Env) (d : Diag) :
    ((ospi_init env d).2).any isMappedOk = false :=
  seg_any_mappedOk_false _ (ospi_init_nonOrdering env d)

theorem seg_any_mappedOk_quad_on (env : Env) (d : Diag) :
    ((spiram_quad_on env d).2).any isMappedOk = false :=
  seg_any_mappedOk_false _ (spiram_quad_on_nonOrdering env d)

theorem seg_any_mappedOk_clear (env : Env) (d : Diag) :
    ((spiram_clear env d).2).any isMappedOk = false :=
  seg_any_mappedOk_false _ (spiram_clear_nonOrdering env d)

theorem spiram_init_not_enable_after_mapped (env : Env) (d : Diag) (hm : env.okMmap = false) :
    ¬ enableOnlyAfterMapped ((spiram_init env d).1.2) := by
  intro h
  unfold enableOnlyAfterMapped at h
  rw [spiram_init_trace, precededBy_append] at h
  obtain ⟨-, h⟩ := h
  rw [precededBy_append] at h
  obtain ⟨-, h⟩ := h
  rw [precededBy_append] at h
  obtain ⟨-, h⟩ := h
  rw [precededBy_append] at h
  obtain ⟨hD, -⟩ := h
  rw [seg_any_mappedOk_ospi_init, seg_any_mappedOk_quad_on, seg_any_mappedOk_clear,
    ospi_mmap_trace] at hD
  simp [precededBy, isMpuEnable, isMappedOk, hm] at hD

/-! ## Concrete environments -/

/-- Every transport call succeeds; the identifier from the README sample
output; the self-test reads every pattern back. -/
def envAllOk : Env :=
  { okOspiInit := true
    okQspiRstEn := true
    okQspiRst := true
    okSpiRstEn := true
    okSpiRst := true
    okReadIdCmd := true
    okReadIdDta := true
    okQuadOn := true
    okClearCmd := fun _ => true
    okClearXmit := fun _ => true
    okWriteCfg := true
    okReadCfg := true
    okMmap := true
    idBytes := [0x0d, 0x5d, 0x52, 0xa2, 0x64, 0x31, 0x91, 0x31]
    read8 := fun _ => spiram_pattern8
    read16 := fun _ => spiram_pattern16
    read32 := fun _ => spiram_pattern32 }

/-- Same as envAllOk, but the mapping-activation call fails. -/
def envMmapFail : Env := { envAllOk with okMmap := false }

/-- A hardware fault environment: the 16-bit pass reads 0x0000 at cell
0x1F1038 (byte address 0x903E2070), and the 8-bit pass reads 0x5A back at
cell 0; everything else is healthy. -/
def envC2 : Env :=
  { envAllOk with
    read16 := fun j => if j = 0x1F1038 then 0x0000 else spiram_pattern16
    read8 := fun j => if j = 0 then 0x5A else spiram_pattern8 }

/-- The 16-bit pass reads 0x0000 at cell 1; the 8-bit and 32-bit passes are
clean. -/
def envC2w : Env :=
  { envAllOk with read16 := fun j => if j = 1 then 0x0000 else spiram_pattern16 }

/-- The 32-bit pass reads 0 at cell 2; the other passes are clean. -/
def envC5w : Env :=
  { envAllOk with read32 := fun j => if j = 2 then 0 else spiram_pattern32 }

/-- The second (4-line reset) mode command fails. -/
def envQuadFail : Env := { envAllOk with okQspiRst := false }

/-- The write-path configuration call fails. -/
def envCfgFail : Env := { envAllOk with okWriteCfg := false }

/-- The clearing transaction at address 64 fails its command phase. -/
def envClearFail : Env := { envAllOk with okClearCmd := fun a => decide (a ≠ 64) }

/-! ## Claim theorems -/

/-- C1 (counterexample): in the run whose mapping-activation transport call
fails, spiram_init still returns true — refuting the claim that it returns
false in that run. -/
theorem C1_counterexample :
    (spiram_init envMmapFail diag0).2 = true ∧
    envMmapFail.okMmap = false ∧
    Event.memoryMapped true 1 false ∈ (spiram_init envMmapFail diag0).1.2 := by
  refine ⟨spiram_init_result envMmapFail diag0, rfl, ?_⟩
  rw [spiram_init_trace]
  refine List.mem_append_right _ (List.mem_append_right _ (List.mem_append_right _
    (List.mem_append_left _ ?_)))
  rw [ospi_mmap_trace]
  simp [envMmapFail]

/-- C1 (amended): spiram_init always returns true, regardless of transport
failures; a mapping-activation failure is reported only through the sticky
DiagnosticResult (SPIRAM_ERR_OSPI_MMAP), not through the return value. -/
theorem C1_amended (env : Env) (d : Diag) :
    (spiram_init env d).2 = true ∧
    (d.err = SpiramErr.ok → env.okOspiInit = true → quadOnFirstErr env = SpiramErr.ok →
      (∀ j, j < SPIRAM_SIZE / 32 →
        env.okClearCmd (32 * j) = true ∧ env.okClearXmit (32 * j) = true) →
      env.okWriteCfg = true → env.okReadCfg = true → env.okMmap = false →
      ((spiram_init env d).1.1).err = SpiramErr.ospiMmap) := by
  refine ⟨spiram_init_result env d, ?_⟩
  intro hok h1 h2 h3 h4 h5 h6
  have e1 : ((ospi_init env d).1).err = SpiramErr.ok := by
    rw [ospi_init_err]
    simp [hok, h1]
  have e2 : ((spiram_quad_on env (ospi_init env d).1).1).err = SpiramErr.ok := by
    rw [spiram_quad_on_err, e1]
    simp [h2]
  have e3 : (spiram_clear env (spiram_quad_on env (ospi_init env d).1).1).1 =
      (spiram_quad_on env (ospi_init env d).1).1 := by
    have h := spiram_clear_loop_diag_allok env (SPIRAM_SIZE / 32) 0
      (spiram_quad_on env (ospi_init env d).1).1 rfl (fun j _ hj => h3 j hj)
    simpa [spiram_clear] using h
  have e4 : ((ospi_mmap env
      (spiram_clear env (spiram_quad_on env (ospi_init env d).1).1).1).1).err =
      SpiramErr.ospiMmap := by
    rw [ospi_mmap_err, e3, e2]
    simp [mmapFirstErr, h4, h5, h6]
  rw [spiram_init_diag, spiram_test_err, e4]
  simp

/-- C1 (witness): at the concrete environment where only the
mapping-activation call fails, the recorded outcome is the mapping failure
variant. -/
theorem C1_witness :
    ((spiram_init envMmapFail diag0).1.1).err = SpiramErr.ospiMmap := by
  refine (C1_amended envMmapFail diag0).2 rfl rfl rfl (fun j _ => ⟨rfl, rfl⟩) rfl rfl rfl

/-- C2 (counterexample): after the 16-bit self-test failure at address
0x903E2070 is recorded, the subsequent failing 8-bit pass leaves the
variant at the 16-bit failure but overwrites the captured faulting address,
refuting the claim that a later would-be failure recording is a complete
no-op. -/
theorem C2_counterexample :
    ((spiram_memtest16 envC2 (spiram_memtest32 envC2 diag0).1).1).err = SpiramErr.memtest16 ∧
    ((spiram_memtest16 envC2 (spiram_memtest32 envC2 diag0).1).1).bad_addr = 0x903E2070 ∧
    ((spiram_test false envC2 diag0).1.1).err = SpiramErr.memtest16 ∧
    ((spiram_test false envC2 diag0).1.1).bad_addr = 0x90000000 ∧
    (0x90000000 : Nat) ≠ 0x903E2070 := by
  have h32 : (spiram_memtest32 envC2 diag0).1 = diag0 := by
    rw [spiram_memtest32_pass envC2 diag0 (fun j _ => rfl)]
  have hk16 : (0x1F1038 : Nat) < SPIRAM_SIZE / 2 := by norm_num [SPIRAM_SIZE]
  have hpre16 : ∀ j, j < 0x1F1038 → envC2.read16 j = spiram_pattern16 := by
    intro j hj
    show (if j = 0x1F1038 then 0x0000 else spiram_pattern16) = spiram_pattern16
    rw [if_neg (by omega)]
  have hne16 : envC2.read16 0x1F1038 ≠ spiram_pattern16 := by
    show (if (0x1F1038 : Nat) = 0x1F1038 then 0x0000 else spiram_pattern16) ≠ spiram_pattern16
    simp [spiram_pattern16]
  have h16 := spiram_memtest16_fail envC2 diag0 0x1F1038 hk16 hpre16 hne16
  have h16d : (spiram_memtest16 envC2 (spiram_memtest32 envC2 diag0).1).1 =
      record16 diag0 (OSPI_MAP_ADDR + 2 * 0x1F1038) (envC2.read16 0x1F1038) := by
    rw [h32, h16]
  have hrec16 : record16 diag0 (OSPI_MAP_ADDR + 2 * 0x1F1038) (envC2.read16 0x1F1038) =
      { diag0 with err := SpiramErr.memtest16, bad_addr := 0x903E2070, bad_pattern16 := 0 } := by
    show record16 diag0 (OSPI_MAP_ADDR + 2 * 0x1F1038)
        (if (0x1F1038 : Nat) = 0x1F1038 then 0x0000 else spiram_pattern16) = _
    simp [record16, spiram_error, diag0, OSPI_MAP_ADDR]
  have hk8 : (0 : Nat) < SPIRAM_SIZE := by norm_num [SPIRAM_SIZE]
  have hne8 : envC2.read8 0 ≠ spiram_pattern8 := by
    show (if (0 : Nat) = 0 then 0x5A else spiram_pattern8) ≠ spiram_pattern8
    simp [spiram_pattern8]
  have h8 := spiram_memtest8_fail envC2
    { diag0 with err := SpiramErr.memtest16, bad_addr := 0x903E2070, bad_pattern16 := 0 }
    0 hk8 (fun j hj => absurd hj (by omega)) hne8
  refine ⟨by rw [h16d, hrec16], by rw [h16d, hrec16], ?_, ?_, by norm_num⟩
  · rw [spiram_test_diag, h16d, hrec16, h8]
    simp [record8, spiram_error]
  · rw [spiram_test_diag, h16d, hrec16, h8]
    simp [record8, spiram_error, OSPI_MAP_ADDR]

/-- C2 (amended): once a DiagnosticResult other than ok is recorded, a later
recording call never changes the recorded variant (spiram_error is a no-op,
and spiram_test preserves the variant); when the 16-bit failure is followed
only by passing granularities — as in the concrete scenario — the whole
record, faulting address and values included, is untouched.  However a later
*failing* granularity does overwrite the shared faulting-address field (see
the counterexample). -/
theorem C2_amended :
    (∀ (e : SpiramErr) (d : Diag), d.err ≠ SpiramErr.ok → spiram_error e d = d) ∧
    (∀ (fast : Bool) (env : Env) (d : Diag), d.err ≠ SpiramErr.ok →
      ((spiram_test fast env d).1.1).err = d.err) ∧
    (∀ (env : Env) (d : Diag) (k : Nat), d.err = SpiramErr.ok →
      allPass32 env → allPass8 env → k < SPIRAM_SIZE / 2 →
      (∀ j, j < k → env.read16 j = spiram_pattern16) → env.read16 k ≠ spiram_pattern16 →
      (spiram_test false env d).1.1 =
        { d with err := SpiramErr.memtest16, bad_addr := OSPI_MAP_ADDR + 2 * k,
                 bad_pattern16 := env.read16 k }) := by
  refine ⟨spiram_error_noop, ?_, ?_⟩
  · intro fast env d h
    rw [spiram_test_err]
    simp [h]
  · intro env d k hok h32 h8 hk hpre hne
    have e32 : (spiram_memtest32 env d).1 = d := by
      rw [spiram_memtest32_pass env d h32]
    have e16 := spiram_memtest16_fail env d k hk hpre hne
    have hrec : record16 d (OSPI_MAP_ADDR + 2 * k) (env.read16 k) =
        { d with err := SpiramErr.memtest16, bad_addr := OSPI_MAP_ADDR + 2 * k,
                 bad_pattern16 := env.read16 k } := by
      simp [record16, spiram_error, hok]
    have e8 : (spiram_memtest8 env
        { d with err := SpiramErr.memtest16, bad_addr := OSPI_MAP_ADDR + 2 * k,
                 bad_pattern16 := env.read16 k }).1 =
        { d with err := SpiramErr.memtest16, bad_addr := OSPI_MAP_ADDR + 2 * k,
                 bad_pattern16 := env.read16 k } := by
      rw [spiram_memtest8_pass env _ h8]
    rw [spiram_test_diag, e32, e16, hrec, e8, spiram_error_noop]
    simp

/-- C2 (witness): the amended claim at concrete inputs — a previously
recorded bring-up failure survives the self-test, and the 16-bit failure at
cell 1 followed by clean passes yields exactly the scenario record. -/
theorem C2_witness :
    ((spiram_test false envC2w { diag0 with err := SpiramErr.ospiInit }).1.1).err =
      SpiramErr.ospiInit ∧
    (spiram_test false envC2w diag0).1.1 =
      { diag0 with err := SpiramErr.memtest16, bad_addr := OSPI_MAP_ADDR + 2 * 1,
                   bad_pattern16 := envC2w.read16 1 } := by
  constructor
  · exact C2_amended.2.1 false envC2w _ (by decide)
  · refine C2_amended.2.2 envC2w diag0 1 rfl (fun j _ => rfl) (fun j _ => rfl)
      (by norm_num [SPIRAM_SIZE]) ?_ ?_
    · intro j hj
      show (if j = 1 then 0x0000 else spiram_pattern16) = spiram_pattern16
      rw [if_neg (by omega)]
    · show (if (1 : Nat) = 1 then 0x0000 else spiram_pattern16) ≠ spiram_pattern16
      simp [spiram_pattern16]

/-- C3 (counterexample): in the run whose mapping-activation call fails, the
window is still access-enabled although mapping was never successfully
established, refuting the claimed invariant. -/
theorem C3_counterexample :
    ¬ (blockedBeforeConfig ((spiram_init envMmapFail diag0).1.2) ∧
       enableOnlyAfterMapped ((spiram_init envMmapFail diag0).1.2)) := by
  intro h
  exact spiram_init_not_enable_after_mapped envMmapFail diag0 rfl h.2

/-- C3 (amended): in every bring-up run, all MPU access is blocked before
any bus-configuration transaction (write-path config, read-path config,
mapping activation), and the window is access-enabled only after the
mapping-activation call has been issued — but that call may have failed, so
access-enabled-without-established-mapping can occur (see the
counterexample). -/
theorem C3_amended (env : Env) (d : Diag) :
    blockedBeforeConfig ((spiram_init env d).1.2) ∧
    enableOnlyAfterMapCall ((spiram_init env d).1.2) :=
  ⟨spiram_init_blocked env d, spiram_init_enable_after_call env d⟩

/-- C3 (witness): the amended ordering invariant at a concrete healthy run. -/
theorem C3_witness :
    blockedBeforeConfig ((spiram_init envAllOk diag0).1.2) ∧
    enableOnlyAfterMapCall ((spiram_init envAllOk diag0).1.2) :=
  C3_amended envAllOk diag0

/-- C4: spiram_quad_on always issues, in this fixed order and regardless of
failures: reset-enable and reset in 4-line mode, reset-enable and reset in
1-line mode, the identifier read in 1-line mode, and quad-enable in 1-line
mode; from a clean state it records exactly the first failing step. -/
theorem C4_quad_on (env : Env) (d : Diag) :
    (spiram_quad_on env d).2 =
      [Event.command quadOnCmd1 env.okQspiRstEn,
       Event.command quadOnCmd2 env.okQspiRst,
       Event.command quadOnCmd3 env.okSpiRstEn,
       Event.command quadOnCmd4 env.okSpiRst,
       Event.command readIdCmd env.okReadIdCmd,
       Event.receive 8 env.okReadIdDta,
       Event.command quadOnCmd5 env.okQuadOn] ∧
    quadOnCmd1.instructionMode = Lines.fourLines ∧
    quadOnCmd2.instructionMode = Lines.fourLines ∧
    quadOnCmd3.instructionMode = Lines.oneLine ∧
    quadOnCmd4.instructionMode = Lines.oneLine ∧
    readIdCmd.instructionMode = Lines.oneLine ∧
    quadOnCmd5.instructionMode = Lines.oneLine ∧
    quadOnCmd1.instruction = SRAM_CMD_RST_EN ∧
    quadOnCmd2.instruction = SRAM_CMD_RST ∧
    quadOnCmd3.instruction = SRAM_CMD_RST_EN ∧
    quadOnCmd4.instruction = SRAM_CMD_RST ∧
    readIdCmd.instruction = SRAM_CMD_READ_ID ∧
    quadOnCmd5.instruction = SRAM_CMD_QUAD_ON ∧
    (d.err = SpiramErr.ok → ((spiram_quad_on env d).1).err = quadOnFirstErr env) ∧
    (d.err ≠ SpiramErr.ok → ((spiram_quad_on env d).1).err = d.err) := by
  refine ⟨spiram_quad_on_trace env d, rfl, rfl, rfl, rfl, rfl, rfl, rfl, rfl, rfl, rfl, rfl,
    rfl, ?_, ?_⟩
  · intro h
    rw [spiram_quad_on_err]
    simp [h]
  · intro h
    rw [spiram_quad_on_err]
    simp [h]

/-- C4 (witness): with the second reset command failing, the full 7-step
sequence is still issued and exactly the first failing step is recorded. -/
theorem C4_witness :
    ((spiram_quad_on envQuadFail diag0).1).err = SpiramErr.qspiRst ∧
    (spiram_quad_on envQuadFail diag0).2.length = 7 := by
  obtain ⟨htr, -, -, -, -, -, -, -, -, -, -, -, -, hrec, -⟩ := C4_quad_on envQuadFail diag0
  exact ⟨by rw [hrec rfl]; rfl, by rw [htr]; rfl⟩

/-- C5: the self-test runs the granularities in the fixed order 32, 16, 8;
each granularity writes the entire window before reading anything back; on
the first mismatch it records that granularity's variant with the faulting
address and observed value and stops reading immediately; the later
granularities still run (their full write passes appear in the trace
unconditionally). -/
theorem C5_selftest (env : Env) (d : Diag) :
    (spiram_test false env d).1.2 =
      (spiram_memtest32 env d).2 ++
      (spiram_memtest16 env (spiram_memtest32 env d).1).2 ++
      (spiram_memtest8 env (spiram_memtest16 env (spiram_memtest32 env d).1).1).2 ∧
    (∀ d' : Diag, ∃ m ≤ SPIRAM_SIZE / 4,
      (spiram_memtest32 env d').2 =
        memtestWrites 4 spiram_pattern32 (SPIRAM_SIZE / 4) ++ memtestReads env.read32 4 0 m) ∧
    (∀ d' : Diag, ∃ m ≤ SPIRAM_SIZE / 2,
      (spiram_memtest16 env d').2 =
        memtestWrites 2 spiram_pattern16 (SPIRAM_SIZE / 2) ++ memtestReads env.read16 2 0 m) ∧
    (∀ d' : Diag, ∃ m ≤ SPIRAM_SIZE,
      (spiram_memtest8 env d').2 =
        memtestWrites 1 spiram_pattern8 SPIRAM_SIZE ++ memtestReads env.read8 1 0 m) ∧
    (∀ (d' : Diag) (k : Nat), k < SPIRAM_SIZE / 4 →
      (∀ j, j < k → env.read32 j = spiram_pattern32) → env.read32 k ≠ spiram_pattern32 →
      spiram_memtest32 env d' =
        (record32 d' (OSPI_MAP_ADDR + 4 * k) (env.read32 k),
         memtestWrites 4 spiram_pattern32 (SPIRAM_SIZE / 4) ++
           memtestReads env.read32 4 0 (k + 1))) ∧
    (∀ (d' : Diag) (k : Nat), k < SPIRAM_SIZE / 2 →
      (∀ j, j < k → env.read16 j = spiram_pattern16) → env.read16 k ≠ spiram_pattern16 →
      spiram_memtest16 env d' =
        (record16 d' (OSPI_MAP_ADDR + 2 * k) (env.read16 k),
         memtestWrites 2 spiram_pattern16 (SPIRAM_SIZE / 2) ++
           memtestReads env.read16 2 0 (k + 1))) ∧
    (∀ (d' : Diag) (k : Nat), k < SPIRAM_SIZE →
      (∀ j, j < k → env.read8 j = spiram_pattern8) → env.read8 k ≠ spiram_pattern8 →
      spiram_memtest8 env d' =
        (record8 d' (OSPI_MAP_ADDR + 1 * k) (env.read8 k),
         memtestWrites 1 spiram_pattern8 SPIRAM_SIZE ++
           memtestReads env.read8 1 0 (k + 1))) := by
  refine ⟨spiram_test_trace false env d, ?_, ?_, ?_,
    fun d' k => spiram_memtest32_fail env d' k,
    fun d' k => spiram_memtest16_fail env d' k,
    fun d' k => spiram_memtest8_fail env d' k⟩
  · intro d'
    obtain ⟨m, hm, htr⟩ := memtest_read_loop_shape env.read32 4 (SPIRAM_SIZE / 4)
      spiram_pattern32 record32 (SPIRAM_SIZE / 4 - 0) 0 d' rfl
    exact ⟨m, by omega, by rw [spiram_memtest32_trace, memtest_write_loop_zero, htr]⟩
  · intro d'
    obtain ⟨m, hm, htr⟩ := memtest_read_loop_shape env.read16 2 (SPIRAM_SIZE / 2)
      spiram_pattern16 record16 (SPIRAM_SIZE / 2 - 0) 0 d' rfl
    exact ⟨m, by omega, by rw [spiram_memtest16_trace, memtest_write_loop_zero, htr]⟩
  · intro d'
    obtain ⟨m, hm, htr⟩ := memtest_read_loop_shape env.read8 1 SPIRAM_SIZE
      spiram_pattern8 record8 (SPIRAM_SIZE - 0) 0 d' rfl
    exact ⟨m, by omega, by rw [spiram_memtest8_trace, memtest_write_loop_zero, htr]⟩

/-- C5 (witness): with a 32-bit mismatch at cell 2, the 32-bit pass writes
the whole window, reads exactly cells 0..2, and records the faulting
address and observed value. -/
theorem C5_witness :
    spiram_memtest32 envC5w diag0 =
      (record32 diag0 (OSPI_MAP_ADDR + 4 * 2) (envC5w.read32 2),
       memtestWrites 4 spiram_pattern32 (SPIRAM_SIZE / 4) ++
         memtestReads envC5w.read32 4 0 3) := by
  obtain ⟨-, -, -, -, h32, -, -⟩ := C5_selftest envC5w diag0
  refine h32 diag0 2 (by norm_num [SPIRAM_SIZE]) ?_ ?_
  · intro j hj
    show (if j = 2 then 0 else spiram_pattern32) = spiram_pattern32
    rw [if_neg (by omega)]
  · show (if (2 : Nat) = 2 then 0 else spiram_pattern32) ≠ spiram_pattern32
    simp [spiram_pattern32]

/-- C6: starting from a state recorded by bring-up (ok or a failure, never
the pass marker), spiram_test records the pass marker and returns true
exactly when no failure was previously recorded and all three granularities
pass; with a failure already recorded it returns false and records
nothing. -/
theorem C6_testpass (env : Env) (d : Diag) (hne : d.err ≠ SpiramErr.memtestPass) :
    ((spiram_test false env d).2 = true ↔
      (d.err = SpiramErr.ok ∧ allPass32 env ∧ allPass16 env ∧ allPass8 env)) ∧
    (((spiram_test false env d).1.1).err = SpiramErr.memtestPass ↔
      (d.err = SpiramErr.ok ∧ allPass32 env ∧ allPass16 env ∧ allPass8 env)) ∧
    (d.err ≠ SpiramErr.ok → (spiram_test false env d).2 = false ∧
      ((spiram_test false env d).1.1).err = d.err) := by
  have herr := spiram_test_err false env d
  have key : (((spiram_test false env d).1.1).err = SpiramErr.memtestPass ↔
      (d.err = SpiramErr.ok ∧ allPass32 env ∧ allPass16 env ∧ allPass8 env)) := by
    rw [herr]
    by_cases hok : d.err = SpiramErr.ok <;> by_cases hA : allPass32 env <;>
      by_cases hB : allPass16 env <;> by_cases hC : allPass8 env <;>
        simp [hok, hA, hB, hC, hne]
  refine ⟨?_, key, ?_⟩
  · rw [spiram_test_result, decide_eq_true_eq]
    exact key
  · intro h0
    constructor
    · rw [spiram_test_result]
      simp only [decide_eq_false_iff_not]
      rw [herr]
      simp [h0, hne]
    · rw [herr]
      simp [h0]

/-- C6 (witness): a clean state with a healthy window yields a true result,
and a recorded mapping failure forces a false result with the failure
retained. -/
theorem C6_witness :
    (spiram_test false envAllOk diag0).2 = true ∧
    ((spiram_test false envAllOk { diag0 with err := SpiramErr.ospiMmap }).1.1).err =
      SpiramErr.ospiMmap := by
  constructor
  · exact (C6_testpass envAllOk diag0 (by decide)).1.mpr
      ⟨rfl, fun j _ => rfl, fun j _ => rfl, fun j _ => rfl⟩
  · exact ((C6_testpass envAllOk _ (by decide)).2.2 (by decide)).2

/-- C7: the memory-map configuration programs the write path quad-line with
the data strobe enabled, the read path quad-line with the strobe disabled
and 6 dummy cycles, and only then issues the mapping activation with the
chip-select timeout counter enabled; each phase records its own distinct
failure variant. -/
theorem C7_mmap (env : Env) (d : Diag) :
    (ospi_mmap env d).2 =
      [Event.mpuDisableAll,
       Event.command mmapWriteCfgCmd env.okWriteCfg,
       Event.command mmapReadCfgCmd env.okReadCfg,
       Event.memoryMapped true 1 env.okMmap,
       Event.mpuEnableMapped] ∧
    mmapWriteCfgCmd.operationType = OpType.writeCfg ∧
    mmapWriteCfgCmd.instructionMode = Lines.fourLines ∧
    mmapWriteCfgCmd.addressMode = Lines.fourLines ∧
    mmapWriteCfgCmd.dataMode = Lines.fourLines ∧
    mmapWriteCfgCmd.dqsEnable = true ∧
    mmapWriteCfgCmd.instruction = SRAM_CMD_QUAD_WRITE ∧
    mmapReadCfgCmd.operationType = OpType.readCfg ∧
    mmapReadCfgCmd.instructionMode = Lines.fourLines ∧
    mmapReadCfgCmd.addressMode = Lines.fourLines ∧
    mmapReadCfgCmd.dataMode = Lines.fourLines ∧
    mmapReadCfgCmd.dqsEnable = false ∧
    mmapReadCfgCmd.dummyCycles = 6 ∧
    mmapReadCfgCmd.instruction = SRAM_CMD_QUAD_READ ∧
    (d.err = SpiramErr.ok → ((ospi_mmap env d).1).err = mmapFirstErr env) ∧
    (SpiramErr.ospiWriteConfig ≠ SpiramErr.ospiReadConfig ∧
     SpiramErr.ospiReadConfig ≠ SpiramErr.ospiMmap ∧
     SpiramErr.ospiWriteConfig ≠ SpiramErr.ospiMmap) := by
  refine ⟨ospi_mmap_trace env d, rfl, rfl, rfl, rfl, rfl, rfl, rfl, rfl, rfl, rfl, rfl, rfl,
    rfl, ?_, by decide⟩
  intro h
  rw [ospi_mmap_err]
  simp [h]

/-- C7 (witness): with a failing write-path configuration, the write-path
failure variant is recorded. -/
theorem C7_witness : ((ospi_mmap envCfgFail diag0).1).err = SpiramErr.ospiWriteConfig := by
  obtain ⟨-, -, -, -, -, -, -, -, -, -, -, -, -, -, herr, -⟩ := C7_mmap envCfgFail diag0
  rw [herr rfl]
  rfl

/-- A Command Transport command event. -/
def isCommandEvt : Event → Bool
  | Event.command _ _ => true
  | _ => false

/-- C8: the escape-hatch operations issue exactly one command transaction
each, never touch the sticky diagnostic state, raise immediately (skipping
the data phase) when the command phase fails, and raise when the data phase
fails. -/
theorem C8_escape_hatch (okCmd okData : Bool) (addr len : Nat) (src : List Nat) (d : Diag) :
    ((spiram_read okCmd okData addr len d).1.1 = d ∧
     (spiram_write okCmd okData addr len src d).1.1 = d) ∧
    (((spiram_read okCmd okData addr len d).1.2.countP isCommandEvt) = 1 ∧
     ((spiram_write okCmd okData addr len src d).1.2.countP isCommandEvt) = 1) ∧
    ((spiram_read okCmd okData addr len d).2 = none ↔ (okCmd = true ∧ okData = true)) ∧
    ((spiram_write okCmd okData addr len src d).2 = none ↔ (okCmd = true ∧ okData = true)) ∧
    (okCmd = false →
      (spiram_read okCmd okData addr len d).1.2 =
        [Event.command (spiramReadCmd addr len) false] ∧
      (spiram_read okCmd okData addr len d).2 = some "HAL_OSPI_Command" ∧
      (spiram_write okCmd okData addr len src d).1.2 =
        [Event.command (spiramWriteCmd addr len) false] ∧
      (spiram_write okCmd okData addr len src d).2 = some "HAL_OSPI_Command") ∧
    (okCmd = true → okData = false →
      (spiram_read okCmd okData addr len d).2 = some "HAL_OSPI_Receive" ∧
      (spiram_write okCmd okData addr len src d).2 = some "HAL_OSPI_Transmit") := by
  cases okCmd <;> cases okData <;>
    simp [spiram_read, spiram_write, isCommandEvt, List.countP_cons, List.countP_nil]

/-- C8 (witness): a failing command phase raises without running the data
phase and leaves the diagnostic state untouched. -/
theorem C8_witness :
    (spiram_read false true 0 4 diag0).2 = some "HAL_OSPI_Command" ∧
    (spiram_read false true 0 4 diag0).1.1 = diag0 ∧
    (spiram_read false true 0 4 diag0).1.2 = [Event.command (spiramReadCmd 0 4) false] := by
  have h := C8_escape_hatch false true 0 4 [] diag0
  exact ⟨(h.2.2.2.2.1 rfl).2.1, h.1.1, (h.2.2.2.2.1 rfl).1⟩

/-- C9: the fast flag of spiram_test does not alter behavior in any way —
for every environment and state, the run with fast = true is identical to
the run with fast = false. -/
theorem C9_fast_flag (env : Env) (d : Diag) :
    spiram_test true env d = spiram_test false env d := rfl

/-- C10: spiram_init runs the clearing pass between quad-mode enable and
memory-map configuration; the pass issues one 32-byte 0xDEADBEEF quad-write
transaction for every 32-byte-aligned address of the 8 MB device regardless
of failures, and a failing transaction records SPIRAM_ERR_CLEAR subject to
first-failure-wins. -/
theorem C10_clear (env : Env) (d : Diag) :
    (spiram_init env d).1.2 =
      (ospi_init env d).2 ++
      ((spiram_quad_on env (ospi_init env d).1).2 ++
       ((spiram_clear env (spiram_quad_on env (ospi_init env d).1).1).2 ++
        ((ospi_mmap env (spiram_clear env (spiram_quad_on env (ospi_init env d).1).1).1).2 ++
         (spiram_test false env
           (ospi_mmap env (spiram_clear env (spiram_quad_on env (ospi_init env d).1).1).1).1).1.2))) ∧
    (spiram_clear env d).2 = ((List.range' 0 (SPIRAM_SIZE / 32)).map (clearChunk env)).flatten ∧
    clearSrc = List.replicate 8 0xDEADBEEF ∧
    spiram_clear_cmd.nbData = 32 ∧
    spiram_clear_cmd.instruction = SRAM_CMD_QUAD_WRITE ∧
    SPIRAM_SIZE = 0x800000 ∧
    (∀ a, a < SPIRAM_SIZE → a % 32 = 0 →
      Event.command { spiram_clear_cmd with address := a } (env.okClearCmd a) ∈
        (spiram_clear env d).2 ∧
      Event.transmit clearSrc (env.okClearXmit a) ∈ (spiram_clear env d).2) ∧
    (d.err = SpiramErr.ok → ∀ a, a < SPIRAM_SIZE → a % 32 = 0 →
      (env.okClearCmd a = false ∨ env.okClearXmit a = false) →
      ((spiram_clear env d).1).err = SpiramErr.clear) ∧
    (d.err ≠ SpiramErr.ok → (spiram_clear env d).1 = d) := by
  have hsz : SPIRAM_SIZE = 0x800000 := rfl
  have hdiv : SPIRAM_SIZE / 32 = 0x40000 := by norm_num [hsz]
  refine ⟨spiram_init_trace env d, spiram_clear_trace env d, rfl, rfl, rfl, rfl, ?_, ?_, ?_⟩
  · intro a ha hmod
    have hj : a = 32 * (a / 32) := by omega
    have hjlt : a / 32 < SPIRAM_SIZE / 32 := by omega
    have hmem : clearChunk env (a / 32) ∈ (List.range' 0 (SPIRAM_SIZE / 32)).map (clearChunk env) :=
      List.mem_map_of_mem (clearChunk env) (List.mem_range'_1.mpr ⟨Nat.zero_le _, by omega⟩)
    rw [spiram_clear_trace]
    constructor
    · exact List.mem_flatten.mpr ⟨clearChunk env (a / 32), hmem, by rw [hj]; simp [clearChunk]⟩
    · exact List.mem_flatten.mpr ⟨clearChunk env (a / 32), hmem, by rw [hj]; simp [clearChunk]⟩
  · intro hok a ha hmod hfail
    have h := spiram_clear_loop_diag_fail env (SPIRAM_SIZE / 32) 0 d rfl hok
      ⟨a / 32, Nat.zero_le _, by omega, by rw [show 32 * (a / 32) = a from by omega]; exact hfail⟩
    unfold spiram_clear
    rw [show (0 : Nat) = 32 * 0 from rfl, h]
  · intro h
    unfold spiram_clear
    exact spiram_clear_loop_diag_notok env SPIRAM_SIZE 0 d (by omega) h

/-- C10 (witness): with the clearing command at address 64 failing, the
clear-failure variant is recorded and the 0xDEADBEEF transmit for address
64 still appears in the trace. -/
theorem C10_witness :
    ((spiram_clear envClearFail diag0).1).err = SpiramErr.clear ∧
    Event.transmit clearSrc (envClearFail.okClearXmit 64) ∈ (spiram_clear envClearFail diag0).2 := by
  have h := C10_clear envClearFail diag0
  refine ⟨h.2.2.2.2.2.2.2.1 rfl 64 (by norm_num [SPIRAM_SIZE]) (by norm_num) (Or.inl rfl),
    (h.2.2.2.2.2.2.1 64 (by norm_num [SPIRAM_SIZE]) (by norm_num)).2⟩
